import Mathlib

/-!
Verification development for the agentic-graph-rag repository.

The Python sources under `src/agent/` are shallowly embedded as Lean
functions.  External collaborators (the hosted Groq language model and the
Neo4j graph store) are modelled as oracles passed in as function arguments:
a database is a function from a Cypher query string to either an error
message (a raised exception) or a list of result rows, and a model call is a
function from the conversation to either an error or a structured response.

Python string operations used by the code (`in`, `upper`, `strip`,
`startswith`, `split`, `replace`, f-strings, `join`) are embedded over
`List Char` / `String`; `upper` is embedded as ASCII uppercasing, which
agrees with Python on every string the validators compare against (the
keyword and label lists are ASCII).
-/

namespace AgenticGraphRAG

/-- `charsPre n h` : the char list `n` is a leading segment of `h`
(Python `h.startswith(n)` on the char-list level). -/
def charsPre : List Char → List Char → Bool
  | [], _ => true
  | _ :: _, [] => false
  | a :: as, b :: bs => a == b && charsPre as bs

/-- `charsSub n h` : the char list `n` occurs contiguously inside `h`
(Python `n in h` on the char-list level). -/
def charsSub (needle : List Char) : List Char → Bool
  | [] => charsPre needle []
  | b :: bs => charsPre needle (b :: bs) || charsSub needle bs

/-- Python `needle in hay` for strings: substring containment. -/
def pyIn (needle hay : String) : Bool :=
  charsSub needle.data hay.data

/-- Python `s.upper()` (ASCII uppercasing). -/
def pyUpper (s : String) : String :=
  ⟨s.data.map Char.toUpper⟩

/-- The whitespace characters Python `str.strip()` removes (ASCII part). -/
def pyIsSpace (c : Char) : Bool :=
  decide (c = ' ' ∨ c = '\t' ∨ c = '\n' ∨ c = '\r' ∨ c = '\x0b' ∨ c = '\x0c')

/-- Python `not s or len(s.strip()) == 0`: the string is empty or whitespace
only. -/
def stripIsEmpty (s : String) : Bool :=
  s.data.all pyIsSpace

/-- Python `s.strip()`: remove leading and trailing whitespace. -/
def pyStrip (s : String) : String :=
  ⟨((s.data.dropWhile pyIsSpace).reverse.dropWhile pyIsSpace).reverse⟩

/-- One pass of Python `s.replace(old, new)` over the remaining characters,
with fuel bounding the recursion (each step consumes at least one character
when `old` is non-empty). -/
def replaceChars (old new : List Char) : Nat → List Char → List Char
  | 0, s => s
  | _ + 1, [] => []
  | fuel + 1, c :: rest =>
    if charsPre old (c :: rest) then
      new ++ replaceChars old new fuel (List.drop (old.length - 1) rest)
    else
      c :: replaceChars old new fuel rest

/-- Python `s.replace(old, new)` for non-empty `old`: replace every
non-overlapping occurrence, left to right. -/
def pyReplace (s old new : String) : String :=
  if old.data.isEmpty then s
  else ⟨replaceChars old.data new.data s.data.length s.data⟩

/-- A Neo4j result record (`dict(record)`): keys in insertion order, a value
of `none` embedding Python `None`. -/
def Row : Type := List (String × Option String)

instance : DecidableEq Row := by
  unfold Row
  infer_instance

/-- The external Neo4j session: running a Cypher query either raises an
exception (error message) or yields the list of result rows. -/
def Db : Type := String → Except String (List Row)

/-- Result of `Neo4jQueryTool._validate_query`: the `valid` flag and the
`error` message (`none` embeds Python `None`). -/
structure ValidationResult where
  valid : Bool
  error : Option String
deriving Repr, DecidableEq

/-- The write-operation denylist of `Neo4jQueryTool._validate_query`. -/
def write_operations : List String :=
  ["CREATE", "DELETE", "REMOVE", "SET", "MERGE", "DETACH"]

/-- The out-of-schema label denylist of `Neo4jQueryTool._validate_query`. -/
def invalid_labels : List String :=
  ["User", "Organization", "Item", "Service", "Customer", "Order"]

/-- `Neo4jQueryTool._validate_query`: reject empty input, require at least
one of the keywords MATCH / RETURN (the Python code uses `any` over the
pair), reject the write-operation keywords as substrings of the uppercased
query, and reject the first out-of-schema label whose `:LABEL` (or
`:(LABEL`) form occurs in the uppercased query. -/
def validate_query (query : String) : ValidationResult :=
  if stripIsEmpty query then
    { valid := false, error := some "Empty query" }
  else
    let query_upper := pyUpper query
    if !(["MATCH", "RETURN"].any fun keyword => pyIn keyword query_upper) then
      { valid := false, error := some "Query must contain MATCH and RETURN" }
    else if write_operations.any fun op => pyIn op query_upper then
      { valid := false, error := some "Write operations are not allowed" }
    else
      match invalid_labels.find? (fun label =>
          pyIn (":" ++ pyUpper label) query_upper ||
          pyIn (":(" ++ pyUpper label) query_upper) with
      | some label => { valid := false, error := some ("Invalid node label: " ++ label) }
      | none => { valid := true, error := none }

/-- Result dictionary of `Neo4jQueryTool.execute_cypher`. -/
structure ExecResult where
  success : Bool
  results : List Row
  count : Nat
  error : Option String
deriving DecidableEq

/-- `Neo4jQueryTool.execute_cypher`: validate, and only when the query is
valid open a session and run it; a raised exception is caught and turned
into a failure result. -/
def execute_cypher (db : Db) (cypher_query : String) : ExecResult :=
  let validation := validate_query cypher_query
  if !validation.valid then
    { success := false, results := [], count := 0,
      error := some ("Invalid query: " ++ validation.error.getD "None") }
  else
    match db cypher_query with
    | Except.ok results_list =>
      { success := true, results := results_list, count := results_list.length,
        error := none }
    | Except.error e =>
      { success := false, results := [], count := 0, error := some e }

/-! ### AnswerFormatter (`src/agent/answer_formatter.py`) -/

/-- `AnswerFormatter._format_empty_results`: the message produced when no
results are found (an f-string interpolating the question). -/
def format_empty_results (question : String) : String :=
  "I couldn't find any information to answer '" ++ question ++
    "'. The database might not contain data matching your query."

/-- The `key: value` parts of one result row, skipping `None` values
(`f"\x7bkey\x7d: \x7bvalue\x7d" for key, value in result.items() if value is not None`),
joined with `", "`. -/
def rowLine (result : Row) : String :=
  String.intercalate ", "
    (result.filterMap fun kv =>
      match kv.2 with
      | some v => some (kv.1 ++ ": " ++ v)
      | none => none)

/-- `AnswerFormatter._format_simple`: the deterministic non-LLM fallback.
Numbered lines for `results[:10]` (`enumerate(results[:10], 1)`), a header
with the total count, and an overflow line when more than ten rows exist. -/
def format_simple (question : String) (results : List Row) : String :=
  let count := results.length
  if count = 0 then format_empty_results question
  else
    String.intercalate "\n"
      (("Found " ++ toString count ++ " result(s):\n") ::
        ((results.take 10).enum.map fun p =>
          toString (p.1 + 1) ++ ". " ++ rowLine p.2) ++
        (if 10 < count then
          ["\n... and " ++ toString (count - 10) ++ " more results"]
         else []))

/-- `AnswerFormatter.format_answer`: empty results short-circuit to the
fixed empty-results message; otherwise the phrasing LLM is invoked (oracle
`fmt`), its output stripped, and a raised exception falls back to
`_format_simple`. -/
def format_answer (fmt : Except String String) (question : String)
    (cypher_query : String) (results : List Row) : String :=
  if results.isEmpty then format_empty_results question
  else
    match fmt with
    | Except.ok answer => pyStrip answer
    | Except.error _ => format_simple question results

/-! ### ToolCallingAgent (`src/agent/tool_calling_agent.py`) -/

/-- One tool call requested by the model: its function name and the
`cypher_query` argument (`args.get('cypher_query', '')`). -/
structure ToolCall where
  name : String
  query : String
deriving DecidableEq

/-- A model response: its text content and the requested tool calls
(an empty list embeds a response with no tool calls, i.e. a final answer). -/
structure ModelResponse where
  content : String
  tool_calls : List ToolCall
deriving DecidableEq

/-- A conversation message: system prompt, user question, model response, or
a tool observation carrying the serialized `execute_cypher` result payload. -/
inductive Message where
  | system (content : String)
  | human (content : String)
  | ai (response : ModelResponse)
  | tool (result : ExecResult)
deriving DecidableEq

/-- The external chat model with tools bound: invoking it on the
conversation either raises an exception or returns a response. -/
def LLMOracle : Type := List Message → Except String ModelResponse

/-- One entry of `tool_calls_made`. -/
structure ToolRecord where
  function : String
  query : String
  success : Bool
  count : Nat
deriving DecidableEq

/-- The mutable loop state of `ToolCallingAgent.ask`: the conversation, the
tool-call records and the accumulated results. -/
structure LoopState where
  msgs : List Message
  tool_calls_made : List ToolRecord
  all_results : List Row
deriving DecidableEq

/-- The result dictionary of `ToolCallingAgent.ask`. -/
structure AskResult where
  question : String
  answer : String
  tool_calls : List ToolRecord
  results : List Row
  success : Bool
  error : Option String
deriving DecidableEq

/-- `max_iterations` in `ToolCallingAgent.ask`. -/
def max_iterations : Nat := 3

/-- Processing of one requested tool call inside the loop body: only calls
named `execute_cypher_query` are executed; the result is recorded, its rows
accumulated, and the observation appended to the conversation. -/
def runToolCall (db : Db) (tc : ToolCall) (st : LoopState) : LoopState :=
  if tc.name = "execute_cypher_query" then
    let result := execute_cypher db tc.query
    { msgs := st.msgs ++ [Message.tool result],
      tool_calls_made := st.tool_calls_made ++
        [{ function := tc.name, query := tc.query,
           success := result.success, count := result.count }],
      all_results := st.all_results ++ result.results }
  else st

/-- The `for tool_call in response.tool_calls` loop. -/
def processToolCalls (db : Db) (calls : List ToolCall) (st : LoopState) :
    LoopState :=
  calls.foldl (fun s tc => runToolCall db tc s) st

/-- The `while iteration < max_iterations` loop of `ToolCallingAgent.ask`,
by recursion on the remaining iterations.  The second component counts the
model invocations performed.  A raised model exception is caught at the
orchestration boundary and converted into the error result (with empty
`tool_calls` and `results`, as in the `except` handler); a response without
tool calls returns the success result; otherwise the tool calls are
processed and the loop continues; exhausted iterations yield the
max-iterations failure result. -/
def askLoop (db : Db) (llm : LLMOracle) (question : String) :
    Nat → LoopState → AskResult × Nat
  | 0, st =>
    ({ question := question,
       answer := "I encountered an issue processing your question after multiple attempts.",
       tool_calls := st.tool_calls_made, results := st.all_results,
       success := false, error := some "Max iterations reached" }, 0)
  | fuel + 1, st =>
    match llm st.msgs with
    | Except.error e =>
      ({ question := question, answer := "I encountered an error: " ++ e,
         tool_calls := [], results := [], success := false, error := some e }, 1)
    | Except.ok response =>
      let st1 : LoopState := { st with msgs := st.msgs ++ [Message.ai response] }
      if response.tool_calls.isEmpty then
        ({ question := question, answer := response.content,
           tool_calls := st1.tool_calls_made, results := st1.all_results,
           success := true, error := none }, 1)
      else
        let st2 := processToolCalls db response.tool_calls st1
        let r := askLoop db llm question fuel st2
        (r.1, r.2 + 1)

/-- The fixed system prompt of `ToolCallingAgent` (its text plays no role in
the embedded control flow; the model is an oracle over the conversation). -/
def system_prompt : String :=
  "You are a helpful AI assistant that answers questions about a Neo4j graph database."

/-- The initial conversation of `ToolCallingAgent.ask`. -/
def initState (question : String) : LoopState :=
  { msgs := [Message.system system_prompt, Message.human question],
    tool_calls_made := [], all_results := [] }

/-- `ToolCallingAgent.ask`. -/
def ask (db : Db) (llm : LLMOracle) (question : String) : AskResult :=
  (askLoop db llm question max_iterations (initState question)).1

/-- The number of model invocations one run of `ToolCallingAgent.ask`
performs. -/
def askModelCalls (db : Db) (llm : LLMOracle) (question : String) : Nat :=
  (askLoop db llm question max_iterations (initState question)).2

/-! ### CypherGenerator (`src/agent/cypher_generator.py`) -/

/-- An extracted entity (`{"name": ..., "type": ...}`). -/
structure Entity where
  name : String
  type : String
deriving DecidableEq

/-- The post-processing `CypherGenerator.generate` applies to the raw LLM
output: strip, drop a leading/trailing markdown fence line when the output
starts with a fence and has more than two lines, remove the fence markers,
and strip again. -/
def cleanOutput (raw : String) : String :=
  let cq := pyStrip raw
  let cq :=
    if charsPre "```".data cq.data then
      let lines := cq.splitOn "\n"
      if 2 < lines.length then
        String.intercalate "\n" (lines.drop 1).dropLast
      else cq
    else cq
  pyStrip (pyReplace (pyReplace cq "```cypher" "") "```" "")

/-- `CypherGenerator.generate`: an empty or whitespace-only question, or a
raised LLM exception, falls back to the fixed query
`MATCH (n) RETURN n LIMIT 10`; otherwise the LLM output (oracle `gen`) is
cleaned up. -/
def generate (gen : Except String String) (question : String) : String :=
  if stripIsEmpty question then "MATCH (n) RETURN n LIMIT 10"
  else
    match gen with
    | Except.ok raw => cleanOutput raw
    | Except.error _ => "MATCH (n) RETURN n LIMIT 10"

/-- Result of `CypherGenerator.generate_with_validation`. -/
structure GenValidation where
  query : String
  valid : Bool
  error : Option String
deriving DecidableEq

/-- `CypherGenerator.generate_with_validation`: generate, then mark the
query invalid when it is empty or contains none of MATCH / RETURN / CREATE /
MERGE (note: CREATE and MERGE count as satisfying this check), and finally
override with an invalid-labels error when one of `User`, `Organization`,
`Item`, `Service` occurs as a case-sensitive `:Label` substring. -/
def generate_with_validation (gen : Except String String)
    (question : String) : GenValidation :=
  let query := generate gen question
  let base : Bool × Option String :=
    if stripIsEmpty query then
      (false, some "Empty query generated")
    else if !(["MATCH", "RETURN", "CREATE", "MERGE"].any fun keyword =>
        pyIn keyword (pyUpper query)) then
      (false, some "Query missing required Cypher keywords")
    else (true, none)
  let bad := ["User", "Organization", "Item", "Service"].filter fun label =>
    pyIn (":" ++ label) query
  if bad.isEmpty then
    { query := query, valid := base.1, error := base.2 }
  else
    { query := query, valid := false,
      error := some ("Query contains invalid labels: " ++
        String.intercalate ", " bad) }

/-! ### GraphRAGAgent (`src/agent/graph_agent.py`) -/

/-- The result dictionary of `GraphRAGAgent.ask` (`query_intent` is only
present in the success dictionary, embedded as an `Option`). -/
structure GraphAskResult where
  question : String
  entities : List Entity
  query_intent : Option String
  cypher_query : String
  raw_results : List Row
  answer : String
  success : Bool
  error : Option String
deriving DecidableEq

/-- `GraphRAGAgent._execute_query`: open a session and run the query with no
further validation (the raised exception, if any, propagates to the
caller). -/
def graph_execute_query (db : Db) (cypher_query : String) :
    Except String (List Row) :=
  db cypher_query

/-- `GraphRAGAgent.ask`.  `EntityExtractor.extract` catches its own
exceptions and always returns an entities/intent pair, so it is embedded as
the pair `ext`; `generate` and `format_answer` likewise never raise.  The
only exception reaching the orchestration `except` handler is one raised by
the Neo4j session in `_execute_query`; the handler returns the structured
failure with empty entities and empty query, as in the source. -/
def graphAsk (ext : List Entity × String) (gen : Except String String)
    (db : Db) (fmt : Except String String) (question : String) :
    GraphAskResult :=
  let entities := ext.1
  let query_intent := ext.2
  let cypher_result := generate_with_validation gen question
  let cypher_query := cypher_result.query
  if !cypher_result.valid then
    { question := question, entities := entities, query_intent := none,
      cypher_query := cypher_query, raw_results := [],
      answer := "I couldn't generate a valid query for your question.",
      success := false,
      error := some ("Invalid Cypher query: " ++ cypher_result.error.getD "None") }
  else
    match graph_execute_query db cypher_query with
    | Except.error e =>
      { question := question, entities := [], query_intent := none,
        cypher_query := "", raw_results := [],
        answer := "I encountered an error processing your question: " ++ e,
        success := false,
        error := some ("Error processing question: " ++ e) }
    | Except.ok raw_results =>
      { question := question, entities := entities,
        query_intent := some query_intent, cypher_query := cypher_query,
        raw_results := raw_results,
        answer := format_answer fmt question cypher_query raw_results,
        success := true, error := none }

/-- The possible top-level outcomes of `ToolCallingAgent.ask`: a success
with no error, or a structured failure whose answer/error pair comes from
the exception handler or the max-iterations return. -/
def StructuredOutcome (r : AskResult) : Prop :=
  (r.success = true ∧ r.error = none) ∨
  (r.success = false ∧
    ((∃ e, r.error = some e ∧ r.answer = "I encountered an error: " ++ e) ∨
     (r.error = some "Max iterations reached" ∧
      r.answer = "I encountered an issue processing your question after multiple attempts.")))

/-- A tool-call record does not report success when its query contains a
write-operation keyword. -/
def RecordRejectsWrites (rec : ToolRecord) : Prop :=
  write_operations.any (fun op => pyIn op (pyUpper rec.query)) = true →
    rec.success = false

/-- The possible top-level outcomes of `GraphRAGAgent.ask`: a success with
no error, or a structured failure from the invalid-query return or the
exception handler. -/
def GraphStructuredOutcome (g : GraphAskResult) : Prop :=
  (g.success = true ∧ g.error = none) ∨
  (g.success = false ∧
    ((g.answer = "I couldn't generate a valid query for your question." ∧
      ∃ e, g.error = some ("Invalid Cypher query: " ++ e)) ∨
     (∃ e, g.answer = "I encountered an error processing your question: " ++ e ∧
       g.error = some ("Error processing question: " ++ e))))

/-! ### Helper lemmas -/


lemma charsPre_mem {a : Char} {as bs : List Char}
    (h : charsPre (a :: as) bs = true) : a ∈ bs := by
  cases bs with
  | nil => simp [charsPre] at h
  | cons b bs =>
    have hab : a == b := by
      simp [charsPre, Bool.and_eq_true] at h
      exact by simp [h.1]
    exact (eq_of_beq hab) ▸ List.mem_cons_self a bs

lemma charsSub_mem {a : Char} {as hay : List Char}
    (h : charsSub (a :: as) hay = true) : a ∈ hay := by
  induction hay with
  | nil => simp [charsSub, charsPre] at h
  | cons b bs ih =>
    rw [charsSub, Bool.or_eq_true] at h
    cases h with
    | inl h => exact charsPre_mem h
    | inr h => exact List.mem_cons_of_mem b (ih h)

lemma pyIsSpace_toUpper_ne_M {c : Char} (h : pyIsSpace c = true) :
    Char.toUpper c ≠ 'M' := by
  have h' := of_decide_eq_true h
  rcases h' with h' | h' | h' | h' | h' | h' <;> subst h' <;> decide

lemma stripIsEmpty_false_of_MATCH {q : String}
    (h : pyIn "MATCH" (pyUpper q) = true) : stripIsEmpty q = false := by
  have h2 : charsSub ('M' :: 'A' :: 'T' :: 'C' :: 'H' :: []) (pyUpper q).data = true := h
  have hM : 'M' ∈ (pyUpper q).data := charsSub_mem h2
  rw [pyUpper] at hM
  simp only [List.mem_map] at hM
  obtain ⟨c, hc, hup⟩ := hM
  by_contra hne
  have hall : stripIsEmpty q = true := by
    cases hb : stripIsEmpty q
    · exact absurd hb hne
    · rfl
  rw [stripIsEmpty, List.all_eq_true] at hall
  exact pyIsSpace_toUpper_ne_M (hall c hc) hup

lemma validate_query_invalid_of_writeop {q : String}
    (h : write_operations.any (fun op => pyIn op (pyUpper q)) = true) :
    (validate_query q).valid = false ∧ (validate_query q).error ≠ none := by
  rw [validate_query]
  by_cases h0 : stripIsEmpty q = true
  · simp [h0]
  · by_cases hk : (["MATCH", "RETURN"].any fun keyword => pyIn keyword (pyUpper q)) = true
    · simp [h0, hk, h]
    · simp [h0, hk]

lemma execute_cypher_of_invalid (db : Db) {q : String}
    (h : (validate_query q).valid = false) :
    execute_cypher db q =
      { success := false, results := [], count := 0,
        error := some ("Invalid query: " ++ (validate_query q).error.getD "None") } := by
  rw [execute_cypher]
  simp [h]

lemma validate_query_keyword_reject {q : String}
    (h0 : stripIsEmpty q = false)
    (h1 : pyIn "MATCH" (pyUpper q) = false)
    (h2 : pyIn "RETURN" (pyUpper q) = false) :
    validate_query q =
      { valid := false, error := some "Query must contain MATCH and RETURN" } := by
  rw [validate_query]
  simp [h0, h1, h2, List.any]

lemma validate_query_label_reject {q : String} {label : String}
    (hmem : label ∈ invalid_labels)
    (hmatch : pyIn "MATCH" (pyUpper q) = true)
    (hw : write_operations.any (fun op => pyIn op (pyUpper q)) = false)
    (hlab : pyIn (":" ++ pyUpper label) (pyUpper q) = true) :
    (validate_query q).valid = false ∧
      ∃ bad ∈ invalid_labels,
        (validate_query q).error = some ("Invalid node label: " ++ bad) := by
  have h0 : stripIsEmpty q = false := stripIsEmpty_false_of_MATCH hmatch
  rw [validate_query]
  simp only [h0, Bool.false_eq_true, if_false]
  have hk : (["MATCH", "RETURN"].any fun keyword => pyIn keyword (pyUpper q)) = true := by
    simp [List.any, hmatch]
  simp only [hk, Bool.not_true, Bool.false_eq_true, if_false, hw]
  have hfind : invalid_labels.find? (fun l =>
      pyIn (":" ++ pyUpper l) (pyUpper q) ||
      pyIn (":(" ++ pyUpper l) (pyUpper q)) ≠ none := by
    intro hnone
    have := List.find?_eq_none.mp hnone label hmem
    simp [hlab] at this
  cases hfound : invalid_labels.find? (fun l =>
      pyIn (":" ++ pyUpper l) (pyUpper q) ||
      pyIn (":(" ++ pyUpper l) (pyUpper q)) with
  | none => exact absurd hfound hfind
  | some bad =>
    have hbadmem : bad ∈ invalid_labels := List.mem_of_find?_eq_some hfound
    simp [hfound]
    exact ⟨bad, hbadmem, rfl⟩


lemma askLoop_calls_le (db : Db) (llm : LLMOracle) (question : String) :
    ∀ (fuel : Nat) (st : LoopState),
      (askLoop db llm question fuel st).2 ≤ fuel := by
  intro fuel
  induction fuel with
  | zero => intro st; simp [askLoop]
  | succ n ih =>
    intro st
    rw [askLoop]
    cases hl : llm st.msgs with
    | error e => simp
    | ok response =>
      by_cases he : response.tool_calls.isEmpty
      · simp [he]
      · simp only [he, Bool.false_eq_true, if_false]
        exact Nat.succ_le_succ (ih _)


lemma askLoop_outcome (db : Db) (llm : LLMOracle) (question : String) :
    ∀ (fuel : Nat) (st : LoopState),
      StructuredOutcome (askLoop db llm question fuel st).1 := by
  intro fuel
  induction fuel with
  | zero =>
    intro st
    right
    exact ⟨rfl, Or.inr ⟨rfl, rfl⟩⟩
  | succ n ih =>
    intro st
    rw [askLoop]
    cases hl : llm st.msgs with
    | error e =>
      right
      exact ⟨rfl, Or.inl ⟨e, rfl, rfl⟩⟩
    | ok response =>
      by_cases he : response.tool_calls.isEmpty
      · simp only [he, if_true]
        left
        exact ⟨rfl, rfl⟩
      · simp only [he, Bool.false_eq_true, if_false]
        exact ih _


lemma runToolCall_inv (db : Db) (tc : ToolCall) (st : LoopState)
    (h : ∀ rec ∈ st.tool_calls_made, RecordRejectsWrites rec) :
    ∀ rec ∈ (runToolCall db tc st).tool_calls_made, RecordRejectsWrites rec := by
  rw [runToolCall]
  by_cases hn : tc.name = "execute_cypher_query"
  · simp only [hn, if_true]
    intro rec hrec
    rw [List.mem_append] at hrec
    cases hrec with
    | inl hrec => exact h rec hrec
    | inr hrec =>
      rw [List.mem_singleton] at hrec
      subst hrec
      intro hw
      have hv := validate_query_invalid_of_writeop hw
      rw [execute_cypher_of_invalid db hv.1]
  · simp only [hn, if_false]
    exact h

lemma processToolCalls_inv (db : Db) (calls : List ToolCall) :
    ∀ (st : LoopState),
      (∀ rec ∈ st.tool_calls_made, RecordRejectsWrites rec) →
      ∀ rec ∈ (processToolCalls db calls st).tool_calls_made,
        RecordRejectsWrites rec := by
  induction calls with
  | nil => intro st h; exact h
  | cons tc rest ih =>
    intro st h
    exact ih _ (runToolCall_inv db tc st h)

lemma askLoop_records_inv (db : Db) (llm : LLMOracle) (question : String) :
    ∀ (fuel : Nat) (st : LoopState),
      (∀ rec ∈ st.tool_calls_made, RecordRejectsWrites rec) →
      ∀ rec ∈ (askLoop db llm question fuel st).1.tool_calls,
        RecordRejectsWrites rec := by
  intro fuel
  induction fuel with
  | zero => intro st h; exact h
  | succ n ih =>
    intro st h
    rw [askLoop]
    cases hl : llm st.msgs with
    | error e => simp
    | ok response =>
      by_cases he : response.tool_calls.isEmpty
      · simp only [he, if_true]
        exact h
      · simp only [he, Bool.false_eq_true, if_false]
        exact ih _ (processToolCalls_inv db response.tool_calls _ h)



lemma graphAsk_outcome (ext : List Entity × String) (gen : Except String String)
    (db : Db) (fmt : Except String String) (question : String) :
    GraphStructuredOutcome (graphAsk ext gen db fmt question) := by
  rw [graphAsk]
  by_cases hv : (generate_with_validation gen question).valid = true
  · simp only [hv, Bool.not_true, Bool.false_eq_true, if_false]
    cases hdb : graph_execute_query db (generate_with_validation gen question).query with
    | error e =>
      right
      exact ⟨rfl, Or.inr ⟨e, rfl, rfl⟩⟩
    | ok raw =>
      left
      exact ⟨rfl, rfl⟩
  · rw [Bool.not_eq_true] at hv
    simp only [hv, Bool.not_false, if_true]
    right
    refine ⟨rfl, Or.inl ⟨rfl, (generate_with_validation gen question).error.getD "None", rfl⟩⟩

lemma take_enum_map {α β : Type} (f : Nat → α → β) (d : α) (n : Nat)
    (l : List α) (h : n ≤ l.length) :
    ((l.take n).enum.map fun p => f p.1 p.2) =
      (List.range n).map fun i => f i (l.getD i d) := by
  apply List.ext_getElem
  · simp [Nat.min_eq_left h]
  · intro i h1 h2
    simp only [List.getElem_map, List.getElem_enum, List.getElem_range]
    have hi : i < n := by simpa using h2
    have hil : i < l.length := Nat.lt_of_lt_of_le hi h
    rw [List.getElem_take]
    rw [List.getD_eq_getElem l d hil]

lemma askLoop_step (db : Db) (llm : LLMOracle) (question : String)
    (fuel : Nat) (st : LoopState) (response : ModelResponse) (cq : String)
    (hllm : llm st.msgs = Except.ok response)
    (hcalls : response.tool_calls = [{ name := "execute_cypher_query", query := cq }]) :
    askLoop db llm question (fuel + 1) st =
      ((askLoop db llm question fuel
          { msgs := st.msgs ++
              [Message.ai response, Message.tool (execute_cypher db cq)],
            tool_calls_made := st.tool_calls_made ++
              [{ function := "execute_cypher_query", query := cq,
                 success := (execute_cypher db cq).success,
                 count := (execute_cypher db cq).count }],
            all_results := st.all_results ++ (execute_cypher db cq).results }).1,
       (askLoop db llm question fuel
          { msgs := st.msgs ++
              [Message.ai response, Message.tool (execute_cypher db cq)],
            tool_calls_made := st.tool_calls_made ++
              [{ function := "execute_cypher_query", query := cq,
                 success := (execute_cypher db cq).success,
                 count := (execute_cypher db cq).count }],
            all_results := st.all_results ++ (execute_cypher db cq).results }).2 + 1) := by
  rw [askLoop, hllm]
  have he : response.tool_calls.isEmpty = false := by
    rw [hcalls]; rfl
  simp only [he, Bool.false_eq_true, if_false, hcalls,
    processToolCalls, List.foldl, runToolCall, if_true, List.append_assoc,
    List.singleton_append, List.cons_append, List.nil_append,
    List.isEmpty_cons]

/-! ### The claims -/


/-- C1 counterexample: a generated query containing the mutating primitive
CREATE is accepted by `CypherGenerator.generate_with_validation` (CREATE is
one of its accepted keywords) and is then executed by `GraphRAGAgent.ask`
against the graph store (the store returns a row, and the run reports
success), so the system does not reject such a query on every path. -/
theorem C1_counterexample :
    pyIn "CREATE" (pyUpper "CREATE (n:Person) RETURN n") = true ∧
    (generate_with_validation (Except.ok "CREATE (n:Person) RETURN n")
        "make a person").valid = true ∧
    (generate_with_validation (Except.ok "CREATE (n:Person) RETURN n")
        "make a person").query = "CREATE (n:Person) RETURN n" ∧
    (graphAsk ([], "intent") (Except.ok "CREATE (n:Person) RETURN n")
        (fun _ => Except.ok [[("n", some "created")]]) (Except.ok "done")
        "make a person").success = true ∧
    (graphAsk ([], "intent") (Except.ok "CREATE (n:Person) RETURN n")
        (fun _ => Except.ok [[("n", some "created")]]) (Except.ok "done")
        "make a person").raw_results = [[("n", some "created")]] :=
  ⟨by decide, by decide, by decide, by decide, by decide⟩

/-- C1 (amended): every query containing a mutating primitive is rejected on
the `Neo4jQueryTool` path: `execute_cypher` returns success `false` with an
error and its result does not depend on the database (no session is
consulted), and every tool call the `ToolCallingAgent.ask` loop records for
such a query has success `false`.  The `GraphRAGAgent.ask` path does not
reject such queries (see the counterexample). -/
theorem C1_mutating_rejected_amended :
    (∀ (db1 db2 : Db) (q : String),
      write_operations.any (fun op => pyIn op (pyUpper q)) = true →
        (execute_cypher db1 q).success = false ∧
        (execute_cypher db1 q).error ≠ none ∧
        execute_cypher db1 q = execute_cypher db2 q) ∧
    (∀ (db : Db) (llm : LLMOracle) (question : String),
      ∀ rec ∈ (ask db llm question).tool_calls,
        write_operations.any (fun op => pyIn op (pyUpper rec.query)) = true →
          rec.success = false) := by
  constructor
  · intro db1 db2 q h
    have hv := validate_query_invalid_of_writeop h
    rw [execute_cypher_of_invalid db1 hv.1, execute_cypher_of_invalid db2 hv.1]
    exact ⟨rfl, by simp, rfl⟩
  · intro db llm question rec hrec hw
    exact askLoop_records_inv db llm question max_iterations (initState question)
      (fun r hr => absurd hr (List.not_mem_nil r)) rec hrec hw

/-- C2: the claim is right and the code is wrong.  The required-keyword
check of `Neo4jQueryTool._validate_query` uses `any` over MATCH / RETURN,
so the query `MATCH (n)`, which contains no RETURN, is accepted as valid,
contradicting the code's own error message `Query must contain MATCH and
RETURN`. -/
theorem C2_keyword_any_bug :
    validate_query "MATCH (n)" = { valid := true, error := none } ∧
    pyIn "RETURN" (pyUpper "MATCH (n)") = false :=
  ⟨by decide, by decide⟩

/-- C3: one run of `ToolCallingAgent.ask` invokes the model at most
`max_iterations` times, and `max_iterations` is 3. -/
theorem C3_model_calls_bounded :
    ∀ (db : Db) (llm : LLMOracle) (question : String),
      askModelCalls db llm question ≤ max_iterations ∧ max_iterations = 3 :=
  fun db llm question =>
    ⟨askLoop_calls_le db llm question max_iterations (initState question), rfl⟩

/-- C4 counterexample: a query validation failure arises inside a run of
`ToolCallingAgent.ask` (the model requests the empty query, which fails
validation), yet the run's final result has success `true`: in-loop query
failures are substituted as error payloads and do not force a failure
result. -/
theorem C4_counterexample :
    (execute_cypher (fun _ => Except.ok []) "").success = false ∧
    (ask (fun _ => Except.ok [])
        (fun msgs =>
          if msgs.length = 2 then
            Except.ok
              { content := "",
                tool_calls := [{ name := "execute_cypher_query", query := "" }] }
          else Except.ok { content := "done", tool_calls := [] })
        "q").tool_calls =
      [{ function := "execute_cypher_query", query := "",
         success := false, count := 0 }] ∧
    (ask (fun _ => Except.ok [])
        (fun msgs =>
          if msgs.length = 2 then
            Except.ok
              { content := "",
                tool_calls := [{ name := "execute_cypher_query", query := "" }] }
          else Except.ok { content := "done", tool_calls := [] })
        "q").success = true :=
  ⟨by decide, by decide, by decide⟩

/-- C4 (amended): the top-level ask operations never propagate an exception
and always return a structured result: `ToolCallingAgent.ask` returns
either a success with no error, or a failure whose answer/error pair is the
exception handler's or the max-iterations apology; `GraphRAGAgent.ask`
returns either a success with no error, or a failure from the invalid-query
return or the exception handler.  In-loop query validation or execution
failures in `ToolCallingAgent.ask` are substituted as error payloads and do
not by themselves make the final result a failure (see the
counterexample). -/
theorem C4_structured_failure_amended :
    (∀ (db : Db) (llm : LLMOracle) (question : String),
      StructuredOutcome (ask db llm question)) ∧
    (∀ (ext : List Entity × String) (gen : Except String String) (db : Db)
        (fmt : Except String String) (question : String),
      GraphStructuredOutcome (graphAsk ext gen db fmt question)) :=
  ⟨fun db llm q => askLoop_outcome db llm q max_iterations (initState q),
   fun ext gen db fmt q => graphAsk_outcome ext gen db fmt q⟩

/-- C5 counterexample: the empty-results message interpolates the question,
so two different questions with zero rows yield two different strings, not
one identical fixed string. -/
theorem C5_counterexample :
    format_answer (Except.ok "x") "a" "q" [] ≠
      format_answer (Except.ok "x") "b" "q" [] := by
  decide

/-- C5 (amended): given zero rows, `AnswerFormatter.format_answer` always
returns the fixed no-results template interpolating only the question: the
result is independent of the query string and of the phrasing LLM, and is
identical across calls with the same question. -/
theorem C5_empty_results_message_amended :
    ∀ (fmt : Except String String) (question cypher_query : String),
      format_answer fmt question cypher_query [] =
        "I couldn't find any information to answer '" ++ question ++
          "'. The database might not contain data matching your query." :=
  fun _ _ _ => rfl

/-- C6: with more than ten result rows, `AnswerFormatter._format_simple`
lists exactly the first ten rows as numbered lines 1. through 10. and
appends an overflow line reporting the remaining count (total minus
ten). -/
theorem C6_overflow_truncation (question : String) (results : List Row)
    (h : 10 < results.length) :
    format_simple question results =
      String.intercalate "\n"
        (("Found " ++ toString results.length ++ " result(s):\n") ::
          ((List.range 10).map fun i =>
            toString (i + 1) ++ ". " ++ rowLine (results.getD i [])) ++
          ["\n... and " ++ toString (results.length - 10) ++ " more results"]) := by
  rw [format_simple]
  have h0 : ¬ results.length = 0 := by omega
  simp only [h0, if_false, h, if_true]
  rw [take_enum_map (fun i r => toString (i + 1) ++ ". " ++ rowLine r)
    ([] : Row) 10 results (by omega)]

/-- C6 witness: the theorem applied to a concrete list of eleven rows. -/
theorem C6_overflow_truncation_witness :
    10 < (List.replicate 11 ([("k", some "v")] : Row)).length ∧
    format_simple "q" (List.replicate 11 ([("k", some "v")] : Row)) =
      String.intercalate "\n"
        (("Found " ++ toString (List.replicate 11 ([("k", some "v")] : Row)).length ++
            " result(s):\n") ::
          ((List.range 10).map fun i =>
            toString (i + 1) ++ ". " ++
              rowLine ((List.replicate 11 ([("k", some "v")] : Row)).getD i [])) ++
          ["\n... and " ++
            toString ((List.replicate 11 ([("k", some "v")] : Row)).length - 10) ++
            " more results"]) :=
  ⟨by decide, C6_overflow_truncation "q" _ (by decide)⟩


/-- C7: in a loop iteration of `ToolCallingAgent.ask` in which the model
requests one `execute_cypher_query` call, the query is validated and
executed via `execute_cypher`, the observation (the tool message, the
tool-call record and the rows) is appended to the state, and the loop
continues with one more model call rather than aborting; on an invalid
query the substituted payload is the error result with success `false`, an
error message, no rows and count 0, and likewise on a failing execution. -/
theorem C7_tool_iteration_continues (db : Db) (llm : LLMOracle)
    (question : String) (fuel : Nat) (st : LoopState)
    (response : ModelResponse) (cq : String)
    (hllm : llm st.msgs = Except.ok response)
    (hcalls : response.tool_calls = [{ name := "execute_cypher_query", query := cq }]) :
    askLoop db llm question (fuel + 1) st =
      ((askLoop db llm question fuel
          { msgs := st.msgs ++
              [Message.ai response, Message.tool (execute_cypher db cq)],
            tool_calls_made := st.tool_calls_made ++
              [{ function := "execute_cypher_query", query := cq,
                 success := (execute_cypher db cq).success,
                 count := (execute_cypher db cq).count }],
            all_results := st.all_results ++ (execute_cypher db cq).results }).1,
       (askLoop db llm question fuel
          { msgs := st.msgs ++
              [Message.ai response, Message.tool (execute_cypher db cq)],
            tool_calls_made := st.tool_calls_made ++
              [{ function := "execute_cypher_query", query := cq,
                 success := (execute_cypher db cq).success,
                 count := (execute_cypher db cq).count }],
            all_results := st.all_results ++ (execute_cypher db cq).results }).2 + 1) ∧
    ((validate_query cq).valid = false →
      execute_cypher db cq =
        { success := false, results := [], count := 0,
          error := some ("Invalid query: " ++ (validate_query cq).error.getD "None") }) ∧
    (∀ e, (validate_query cq).valid = true → db cq = Except.error e →
      execute_cypher db cq =
        { success := false, results := [], count := 0, error := some e }) := by
  refine ⟨askLoop_step db llm question fuel st response cq hllm hcalls, ?_, ?_⟩
  · intro hv
    exact execute_cypher_of_invalid db hv
  · intro e hv hdb
    rw [execute_cypher]
    simp [hv, hdb]

/-- C7 witness: the theorem applied to a concrete run whose model requests
the empty query (which fails validation). -/
theorem C7_tool_iteration_continues_witness :
    ((fun _ => Except.ok
        { content := "",
          tool_calls := [{ name := "execute_cypher_query", query := "" }] } :
      LLMOracle) (initState "q").msgs =
        Except.ok
          { content := "",
            tool_calls := [{ name := "execute_cypher_query", query := "" }] }) ∧
    askLoop (fun _ => Except.ok []) (fun _ => Except.ok
        { content := "",
          tool_calls := [{ name := "execute_cypher_query", query := "" }] })
      "q" 1 (initState "q") =
      ((askLoop (fun _ => Except.ok []) (fun _ => Except.ok
          { content := "",
            tool_calls := [{ name := "execute_cypher_query", query := "" }] })
        "q" 0
          { msgs := (initState "q").msgs ++
              [Message.ai
                { content := "",
                  tool_calls := [{ name := "execute_cypher_query", query := "" }] },
               Message.tool (execute_cypher (fun _ => Except.ok []) "")],
            tool_calls_made := (initState "q").tool_calls_made ++
              [{ function := "execute_cypher_query", query := "",
                 success := (execute_cypher (fun _ => Except.ok []) "").success,
                 count := (execute_cypher (fun _ => Except.ok []) "").count }],
            all_results := (initState "q").all_results ++
              (execute_cypher (fun _ => Except.ok []) "").results }).1,
       (askLoop (fun _ => Except.ok []) (fun _ => Except.ok
          { content := "",
            tool_calls := [{ name := "execute_cypher_query", query := "" }] })
        "q" 0
          { msgs := (initState "q").msgs ++
              [Message.ai
                { content := "",
                  tool_calls := [{ name := "execute_cypher_query", query := "" }] },
               Message.tool (execute_cypher (fun _ => Except.ok []) "")],
            tool_calls_made := (initState "q").tool_calls_made ++
              [{ function := "execute_cypher_query", query := "",
                 success := (execute_cypher (fun _ => Except.ok []) "").success,
                 count := (execute_cypher (fun _ => Except.ok []) "").count }],
            all_results := (initState "q").all_results ++
              (execute_cypher (fun _ => Except.ok []) "").results }).2 + 1) :=
  ⟨rfl,
    (C7_tool_iteration_continues (fun _ => Except.ok [])
      (fun _ => Except.ok
        { content := "",
          tool_calls := [{ name := "execute_cypher_query", query := "" }] })
      "q" 0 (initState "q")
      { content := "",
        tool_calls := [{ name := "execute_cypher_query", query := "" }] }
      "" rfl rfl).1⟩

/-- C8: a query that contains the read primitives MATCH and RETURN and no
mutating keyword, but references a denylisted out-of-schema label as a
case-insensitive `:Label` token, is rejected by
`Neo4jQueryTool._validate_query` with an invalid-label error. -/
theorem C8_invalid_label_rejected (q : String) (label : String)
    (hmem : label ∈ invalid_labels)
    (hmatch : pyIn "MATCH" (pyUpper q) = true)
    (hret : pyIn "RETURN" (pyUpper q) = true)
    (hw : write_operations.any (fun op => pyIn op (pyUpper q)) = false)
    (hlab : pyIn (":" ++ pyUpper label) (pyUpper q) = true) :
    (validate_query q).valid = false ∧
      ∃ bad ∈ invalid_labels,
        (validate_query q).error = some ("Invalid node label: " ++ bad) :=
  validate_query_label_reject hmem hmatch hw hlab

/-- C8 witness: the theorem applied to a concrete query using the
denylisted label `User`. -/
theorem C8_invalid_label_rejected_witness :
    ("User" ∈ invalid_labels ∧
     pyIn "MATCH" (pyUpper "MATCH (u:User) RETURN u") = true ∧
     pyIn "RETURN" (pyUpper "MATCH (u:User) RETURN u") = true ∧
     write_operations.any
       (fun op => pyIn op (pyUpper "MATCH (u:User) RETURN u")) = false ∧
     pyIn (":" ++ pyUpper "User") (pyUpper "MATCH (u:User) RETURN u") = true) ∧
    ((validate_query "MATCH (u:User) RETURN u").valid = false ∧
      ∃ bad ∈ invalid_labels,
        (validate_query "MATCH (u:User) RETURN u").error =
          some ("Invalid node label: " ++ bad)) :=
  ⟨⟨by decide, by decide, by decide, by decide, by decide⟩,
   C8_invalid_label_rejected "MATCH (u:User) RETURN u" "User"
     (by decide) (by decide) (by decide) (by decide) (by decide)⟩

/-- C9 counterexample: the whitespace-only query `" "` is a non-empty
string containing neither MATCH nor RETURN, yet it is rejected with the
error `Empty query`, not with `Query must contain MATCH and RETURN`. -/
theorem C9_counterexample :
    (" " : String) ≠ "" ∧
    pyIn "MATCH" (pyUpper " ") = false ∧
    pyIn "RETURN" (pyUpper " ") = false ∧
    validate_query " " = { valid := false, error := some "Empty query" } ∧
    (validate_query " ").error ≠ some "Query must contain MATCH and RETURN" :=
  ⟨by decide, by decide, by decide, by decide, by decide⟩

/-- C9 (amended): every query whose text is not empty or whitespace-only
and that contains neither MATCH nor RETURN (case-insensitive) is rejected
by `Neo4jQueryTool._validate_query` with the error `Query must contain
MATCH and RETURN`; a whitespace-only query is also rejected, but with the
error `Empty query`. -/
theorem C9_missing_keywords_rejected_amended (q : String)
    (h0 : stripIsEmpty q = false)
    (h1 : pyIn "MATCH" (pyUpper q) = false)
    (h2 : pyIn "RETURN" (pyUpper q) = false) :
    validate_query q =
      { valid := false, error := some "Query must contain MATCH and RETURN" } :=
  validate_query_keyword_reject h0 h1 h2

/-- C9 witness: the theorem applied to the concrete query `hello world`. -/
theorem C9_missing_keywords_rejected_witness :
    (stripIsEmpty "hello world" = false ∧
     pyIn "MATCH" (pyUpper "hello world") = false ∧
     pyIn "RETURN" (pyUpper "hello world") = false) ∧
    validate_query "hello world" =
      { valid := false, error := some "Query must contain MATCH and RETURN" } :=
  ⟨⟨by decide, by decide, by decide⟩,
   C9_missing_keywords_rejected_amended "hello world"
     (by decide) (by decide) (by decide)⟩

/-- C10: the write-operation denylist matches raw case-insensitive
substrings, so the concrete read-only query whose string literal `Sunset`
contains SET — while containing MATCH and RETURN and no other denylist
keyword — is rejected with `Write operations are not allowed`. -/
theorem C10_substring_denylist_rejects_literal :
    pyIn "MATCH"
      (pyUpper "MATCH (p:Person) WHERE p.name = \"Sunset\" RETURN p.name") = true ∧
    pyIn "RETURN"
      (pyUpper "MATCH (p:Person) WHERE p.name = \"Sunset\" RETURN p.name") = true ∧
    pyIn "SET"
      (pyUpper "MATCH (p:Person) WHERE p.name = \"Sunset\" RETURN p.name") = true ∧
    pyIn "CREATE"
      (pyUpper "MATCH (p:Person) WHERE p.name = \"Sunset\" RETURN p.name") = false ∧
    pyIn "DELETE"
      (pyUpper "MATCH (p:Person) WHERE p.name = \"Sunset\" RETURN p.name") = false ∧
    pyIn "REMOVE"
      (pyUpper "MATCH (p:Person) WHERE p.name = \"Sunset\" RETURN p.name") = false ∧
    pyIn "MERGE"
      (pyUpper "MATCH (p:Person) WHERE p.name = \"Sunset\" RETURN p.name") = false ∧
    pyIn "DETACH"
      (pyUpper "MATCH (p:Person) WHERE p.name = \"Sunset\" RETURN p.name") = false ∧
    validate_query "MATCH (p:Person) WHERE p.name = \"Sunset\" RETURN p.name" =
      { valid := false, error := some "Write operations are not allowed" } :=
  ⟨by decide, by decide, by decide, by decide, by decide, by decide, by decide,
   by decide, by decide⟩

end AgenticGraphRAG
